import Mathlib

/-!
Verification development for the openpocket connectivity core.

The definitions below are shallow embeddings of the TypeScript sources:
  - `src/core/gateway/GatewayClient.ts` (connection multiplexer)
  - `src/core/security/logSanitizer.ts`
  - `src/core/security/base64url.ts`
  - `src/core/security/connectionSecrets.ts` / `deviceAuth` (device-auth signer)
  - `src/core/security/deviceIdentity.ts`
  - `src/core/sessions/SessionsService.ts` (local pin/label overrides)
  - `src/screens/internal/ChatScreen.tsx` (chat stream state handling)

JavaScript runtime values are modelled by `JsValue`; machine numbers that
matter here are small non-negative integers and are modelled by `Nat`;
functions that can throw return `Except String` or `Option`; external
cryptographic primitives (tweetnacl Ed25519, js-sha256) are abstracted as
function parameters.
-/

namespace OpenPocket

/-- Model of the JavaScript values the client manipulates: strings, numbers,
booleans, `null`, `undefined`, arrays, and plain objects (ordered field
lists, as produced by `Object.entries`). -/
inductive JsValue where
  | str (s : String)
  | num (n : Int)
  | bool (b : Bool)
  | null
  | undef
  | arr (items : List JsValue)
  | obj (fields : List (String × JsValue))

/-- Property lookup on an object field list: the first binding of the key,
like a JavaScript object property read (runtime objects have unique keys). -/
def jsField (fields : List (String × JsValue)) (k : String) : Option JsValue :=
  (fields.find? (fun p => p.1 == k)).map (fun p => p.2)

/-- Property lookup on an arbitrary value: only plain objects carry named
fields here (array index properties are all-numeric keys, never the names
looked up in this code base). -/
def jsFieldOf (v : JsValue) (k : String) : Option JsValue :=
  match v with
  | .obj fields => jsField fields k
  | _ => none

theorem jsSizeOf_lt_of_mem {v : JsValue} {items : List JsValue} (h : v ∈ items) :
    sizeOf v < sizeOf (JsValue.arr items) := by
  have h1 := List.sizeOf_lt_of_mem h
  have h2 : sizeOf (JsValue.arr items) = 1 + sizeOf items := by simp
  omega

theorem jsSizeOf_lt_of_field_mem {p : String × JsValue} {fields : List (String × JsValue)}
    (h : p ∈ fields) : sizeOf p.2 < sizeOf (JsValue.obj fields) := by
  have h1 := List.sizeOf_lt_of_mem h
  have h2 : sizeOf p = 1 + sizeOf p.1 + sizeOf p.2 := by
    cases p
    simp
  have h3 : sizeOf (JsValue.obj fields) = 1 + sizeOf fields := by simp
  omega

theorem jsSizeOf_lt_of_jsField {fields : List (String × JsValue)} {k : String} {v : JsValue}
    (h : jsField fields k = some v) : sizeOf v < sizeOf (JsValue.obj fields) := by
  unfold jsField at h
  cases hf : fields.find? (fun p => p.1 == k) with
  | none =>
    rw [hf] at h
    exact absurd h (by simp)
  | some p =>
    rw [hf] at h
    have hv : p.2 = v := by simpa using h
    have hm := List.mem_of_find?_eq_some hf
    have := jsSizeOf_lt_of_field_mem hm
    rw [hv] at this
    exact this

/-- `String.prototype.toLowerCase` (character-wise lowering; all keys in
this code base are ASCII). -/
def jsToLowerCase (s : String) : String :=
  String.mk (s.data.map Char.toLower)

/-- Drops leading whitespace characters from a character list. -/
def dropLeadingWs : List Char → List Char
  | [] => []
  | c :: rest => if c.isWhitespace then dropLeadingWs rest else c :: rest

/-- `String.prototype.trim`: strips whitespace from both ends. -/
def jsTrim (s : String) : String :=
  String.mk ((dropLeadingWs (dropLeadingWs s.data.reverse).reverse))

/-- Whether `pat` is a prefix of `cs` (character lists). -/
def charListStartsWith : List Char → List Char → Bool
  | [], _ => true
  | _ :: _, [] => false
  | p :: ps, c :: cs => p == c && charListStartsWith ps cs

/-- Whether `pat` occurs contiguously inside `cs` (character lists). -/
def charListHasSub (cs pat : List Char) : Bool :=
  match cs with
  | [] => pat.isEmpty
  | _ :: rest => charListStartsWith pat cs || charListHasSub rest pat

/-- `String.prototype.includes`: substring containment. -/
def strIncludes (s pat : String) : Bool :=
  charListHasSub s.data pat.data

/-- `Array.prototype.join(sep)`: empty list joins to `""`, a singleton to
itself. -/
def joinWith (sep : String) : List String → String
  | [] => ""
  | [x] => x
  | x :: rest => x ++ sep ++ joinWith sep rest

namespace GatewayClient

/-- `sanitizeSecret` in GatewayClient.ts: masks a secret string, keeping
only its length. -/
def sanitizeSecret (value : String) : String :=
  "<redacted:" ++ toString value.length ++ ">"

/-- Key test inside `sanitizeForLog` in GatewayClient.ts (lines 108-113):
the lower-cased key must contain `token`, `password`, or `secret`.
Note that this local copy does NOT test for `signature`. -/
def isSensitiveKey (key : String) : Bool :=
  let lower := jsToLowerCase key
  strIncludes lower "token" || strIncludes lower "password" || strIncludes lower "secret"

mutual

/-- `sanitizeForLog` in GatewayClient.ts (lines 94-120): top-level strings
pass through, arrays recurse element-wise, and on objects a string field
whose key matches `isSensitiveKey` is redacted while every other field
recurses; non-object non-array values pass through. -/
def sanitizeForLog : JsValue → JsValue
  | .str s => .str s
  | .arr items => .arr (sanitizeForLogList items)
  | .obj fields => .obj (sanitizeForLogFields fields)
  | .num n => .num n
  | .bool b => .bool b
  | .null => .null
  | .undef => .undef
termination_by v => sizeOf v

/-- Element-wise recursion for the array case of `sanitizeForLog`
(`input.map(sanitizeForLog)`). -/
def sanitizeForLogList : List JsValue → List JsValue
  | [] => []
  | v :: rest => sanitizeForLog v :: sanitizeForLogList rest
termination_by l => sizeOf l

/-- Field-wise recursion for the object case of `sanitizeForLog`
(the `Object.entries` loop, lines 107-119). -/
def sanitizeForLogFields : List (String × JsValue) → List (String × JsValue)
  | [] => []
  | (k, .str s) :: rest =>
    (if isSensitiveKey k then (k, JsValue.str (sanitizeSecret s))
     else (k, sanitizeForLog (.str s))) :: sanitizeForLogFields rest
  | (k, v) :: rest => (k, sanitizeForLog v) :: sanitizeForLogFields rest
termination_by l => sizeOf l

end

end GatewayClient

namespace LogSanitizer

/-- `sanitizeSecret` in security/logSanitizer.ts. -/
def sanitizeSecret (value : String) : String :=
  "<redacted:" ++ toString value.length ++ ">"

/-- Key test inside `sanitizeForLog` in security/logSanitizer.ts (lines
42-49): unlike the GatewayClient-local copy, this one also matches
`signature`. -/
def isSensitiveKey (key : String) : Bool :=
  let lower := jsToLowerCase key
  strIncludes lower "token" || strIncludes lower "password" ||
    strIncludes lower "secret" || strIncludes lower "signature"

mutual

/-- `sanitizeForLog` in security/logSanitizer.ts (lines 27-56). This module
is not imported by GatewayClient.ts. -/
def sanitizeForLog : JsValue → JsValue
  | .str s => .str s
  | .arr items => .arr (sanitizeForLogList items)
  | .obj fields => .obj (sanitizeForLogFields fields)
  | .num n => .num n
  | .bool b => .bool b
  | .null => .null
  | .undef => .undef
termination_by v => sizeOf v

/-- Element-wise recursion for the array case of the logSanitizer
`sanitizeForLog`. -/
def sanitizeForLogList : List JsValue → List JsValue
  | [] => []
  | v :: rest => sanitizeForLog v :: sanitizeForLogList rest
termination_by l => sizeOf l

/-- Field-wise recursion for the object case of the logSanitizer
`sanitizeForLog`. -/
def sanitizeForLogFields : List (String × JsValue) → List (String × JsValue)
  | [] => []
  | (k, .str s) :: rest =>
    (if isSensitiveKey k then (k, JsValue.str (sanitizeSecret s))
     else (k, sanitizeForLog (.str s))) :: sanitizeForLogFields rest
  | (k, v) :: rest => (k, sanitizeForLog v) :: sanitizeForLogFields rest
termination_by l => sizeOf l

end

end LogSanitizer

namespace GatewayClient

/-- `GatewayConnectionStatus` in gateway/types.ts. -/
inductive GatewayConnectionStatus where
  | disconnected
  | connecting
  | connected
  | reconnecting
  | error
deriving DecidableEq

/-- Model of a JavaScript `Error` as this client builds them: rejections
are constructed with `new Error(message)` only, so the optional `code`
field records whether any structured error code was attached (the source
never attaches one). -/
structure JsError where
  message : String
  code : Option String := none
deriving DecidableEq

/-- The `error` field of a response packet, per gateway/types.ts:
`{ code?: string; message?: string } | string`. -/
inductive GatewayErrorDetail where
  | str (s : String)
  | obj (code : Option String) (message : Option String)
deriving DecidableEq

/-- An incoming `res` frame (`GatewayResponsePacket` in gateway/types.ts);
a missing payload is `undefined`. -/
structure GatewayResponsePacket where
  id : String
  ok : Bool
  payload : JsValue := .undef
  error : Option GatewayErrorDetail := none

/-- The error-message normalization in `handleResponsePacket` (lines
429-432): a bare string is used as-is; otherwise
`error?.message ?? error?.code ?? "Gateway request failed"`. -/
def normalizeResponseErrorMessage : Option GatewayErrorDetail → String
  | some (.str s) => s
  | some (.obj code message) => message.getD (code.getD "Gateway request failed")
  | none => "Gateway request failed"

/-- How a pending request future is settled. -/
inductive RequestSettlement where
  | resolved (payload : JsValue)
  | rejected (error : JsError)

/-- Observable side effects of the multiplexer, in emission order. -/
inductive ClientAction (ρ : Type) where
  | rejectPending (resolver : ρ) (error : JsError)
  | setStatus (status : GatewayConnectionStatus) (detail : String)
  | logLine (line : String)
  | scheduleRetry (delayMs : Nat)

/-- The mutable state of a `GatewayClient` instance, with pending-request
resolvers abstracted by a type `ρ` and listeners by registration tokens.
The pending map is an insertion-ordered association list (JS `Map`). -/
structure ClientState (ρ : Type) where
  socketOpen : Bool
  status : GatewayConnectionStatus
  shouldReconnect : Bool
  reconnectEnabled : Bool
  hasConnectInput : Bool
  reconnectAttempt : Nat
  isReconnectFlow : Bool
  reconnectTimer : Option Nat
  pendingRequests : List (String × ρ)
  eventListeners : List (String × List Nat)
  reconnectInitialDelayMs : Nat
  reconnectFactor : Nat
  reconnectMaxDelayMs : Nat

variable {ρ : Type}

/-- `Map.get` on the pending-request map. -/
def lookupPending (m : List (String × ρ)) (id : String) : Option ρ :=
  (m.find? (fun e => e.1 == id)).map (fun e => e.2)

/-- `Map.delete` on the pending-request map (keys are unique in a JS Map).
-/
def removePending (m : List (String × ρ)) (id : String) : List (String × ρ) :=
  m.filter (fun e => e.1 != id)

/-- `handleResponsePacket` (lines 416-434): looks up the pending request
by the frame id; a miss changes nothing; a hit deletes the entry from the
map and then settles it exactly once, resolving with the payload when
`ok` and rejecting with a normalized plain `Error` otherwise. -/
def handleResponsePacket (packet : GatewayResponsePacket) (st : ClientState ρ) :
    ClientState ρ × List (ρ × RequestSettlement) :=
  match lookupPending st.pendingRequests packet.id with
  | none => (st, [])
  | some pending =>
    let st1 := { st with pendingRequests := removePending st.pendingRequests packet.id }
    if packet.ok then
      (st1, [(pending, .resolved packet.payload)])
    else
      (st1, [(pending,
        .rejected { message := normalizeResponseErrorMessage packet.error, code := none })])

/-- `rejectAllPending` (lines 537-543): rejects every pending request with
one shared error message and clears the map. -/
def rejectAllPending (message : String) (st : ClientState ρ) :
    ClientState ρ × List (ClientAction ρ) :=
  ({ st with pendingRequests := [] },
   st.pendingRequests.map (fun e =>
     ClientAction.rejectPending e.2 { message := message, code := none }))

/-- The delay formula in `scheduleReconnect` (lines 476-479):
`min(initialDelay * factor ^ (attempt - 1), maxDelay)`. -/
def reconnectDelay (initialDelayMs factor maxDelayMs attempt : Nat) : Nat :=
  min (initialDelayMs * factor ^ (attempt - 1)) maxDelayMs

/-- `scheduleReconnect` (lines 466-493): bails out unless reconnecting is
still wanted, enabled, and connect input exists; otherwise clears any
previous timer, increments the attempt counter, computes the backoff
delay, reports status, logs, and schedules the retry. -/
def scheduleReconnect (reason : String) (st : ClientState ρ) :
    ClientState ρ × List (ClientAction ρ) :=
  if !st.shouldReconnect || !st.reconnectEnabled || !st.hasConnectInput then
    (st, [])
  else
    let attempt := st.reconnectAttempt + 1
    let delay := reconnectDelay st.reconnectInitialDelayMs st.reconnectFactor
      st.reconnectMaxDelayMs attempt
    ({ st with
        status := .reconnecting,
        reconnectAttempt := attempt, isReconnectFlow := true,
        reconnectTimer := some delay },
     [ClientAction.setStatus .reconnecting (reason ++ ", retry in " ++ toString delay ++ "ms"),
      ClientAction.logLine ("reconnect scheduled in " ++ toString delay ++ "ms (" ++ reason ++ ")"),
      ClientAction.scheduleRetry delay])

/-- The `socket.onclose` handler (lines 390-405): drops the socket,
rejects every pending request with "socket closed", then either schedules
a reconnect (when still wanted and enabled) or reports `disconnected`.
The `settleReject` of the in-flight connect promise concerns only the
handshake future, not the pending-request map, and is omitted here. -/
def handleSocketClose (st : ClientState ρ) : ClientState ρ × List (ClientAction ρ) :=
  let wasConnected := st.status = GatewayConnectionStatus.connected
  let st1 := { st with socketOpen := false }
  let closed := rejectAllPending "socket closed" st1
  if closed.1.shouldReconnect && closed.1.reconnectEnabled then
    let sched := scheduleReconnect "socket closed" closed.1
    (sched.1, closed.2 ++ sched.2)
  else
    ({ closed.1 with status := .disconnected },
     closed.2 ++ [ClientAction.setStatus .disconnected
       (if wasConnected then "Socket closed" else "Socket not connected")])

/-- The success path of `connect` (lines 236-239): a completed handshake
resets the reconnect attempt counter to zero and leaves the reconnect
flow. -/
def connectSucceeded (st : ClientState ρ) : ClientState ρ :=
  { st with status := .connected, reconnectAttempt := 0, isReconnectFlow := false }

/-- What the `connect.challenge` branch of `socket.onmessage` does with
the built connect params (lines 374-376): the diagnostic log line embeds
`sanitizeForLog connectParams`, while the `connect` request is sent with
the original, unsanitized params. -/
structure HandshakeSendOutcome where
  loggedParams : JsValue
  wireParams : JsValue

/-- See `HandshakeSendOutcome`. -/
def handshakeChallengeSend (connectParams : JsValue) : HandshakeSendOutcome :=
  { loggedParams := sanitizeForLog connectParams, wireParams := connectParams }

end GatewayClient

namespace ChatScreen

set_option maxHeartbeats 1600000 in
mutual

/-- `extractTextFromUnknown` in ChatScreen.tsx (lines 96-129): strings
pass through; arrays map recursively, keep the chunks with non-blank
trims, join with newlines and trim; objects try, in order, a string
`text` field, a string `content` field, an array `content`/`parts`/
`items` field, and finally recurse into an object-like `message` field
(the source `isRecord` test also accepts arrays); everything else yields
`""`. -/
def extractTextFromUnknown : JsValue → String
  | .str s => s
  | .arr items =>
      jsTrim (joinWith "\n"
        ((extractTextList items).filter (fun chunk => 0 < (jsTrim chunk).length)))
  | .obj fields =>
      match jsField fields "text" with
      | some (.str s) => s
      | _ =>
        match h2 : jsField fields "content" with
        | some (.str s) => s
        | some (.arr l) => extractTextFromUnknown (.arr l)
        | _ =>
          match h3 : jsField fields "parts" with
          | some (.arr l) => extractTextFromUnknown (.arr l)
          | _ =>
            match h4 : jsField fields "items" with
            | some (.arr l) => extractTextFromUnknown (.arr l)
            | _ =>
              match h5 : jsField fields "message" with
              | some (.obj mf) => extractTextFromUnknown (.obj mf)
              | some (.arr ml) => extractTextFromUnknown (.arr ml)
              | _ => ""
  | _ => ""
termination_by v => sizeOf v
decreasing_by
  all_goals first
    | (simp only [List.cons.sizeOf_spec, JsValue.arr.sizeOf_spec]; omega)
    | exact jsSizeOf_lt_of_jsField h2
    | exact jsSizeOf_lt_of_jsField h3
    | exact jsSizeOf_lt_of_jsField h4
    | exact jsSizeOf_lt_of_jsField h5

/-- Element-wise recursion for the array case of
`extractTextFromUnknown` (`value.map(extractTextFromUnknown)`). -/
def extractTextList : List JsValue → List String
  | [] => []
  | v :: rest => extractTextFromUnknown v :: extractTextList rest
termination_by l => sizeOf l

end

/-- The chat-stream states carried by a `chat` event payload
(`core/chat/types.ts`). -/
inductive ChatRunState where
  | delta
  | final
  | aborted
  | error
deriving DecidableEq

/-- `ChatEventPayload` as parsed by `parseChatEventPayload` in
ChatService.ts; `message` defaults to `undefined`. -/
structure ChatEventPayload where
  runId : String
  sessionKey : String
  seq : Int
  state : ChatRunState
  message : JsValue := .undef
  errorMessage : Option String := none

/-- The ChatScreen state touched by `onChatEvent`: the tracked run id,
the streaming buffer (`streamTextRef` / `streamText`), the streaming
flag, the bodies of completed assistant messages in order, and the error
banner. -/
structure ChatScreenState where
  activeRunId : Option String
  streamText : String
  isStreaming : Bool
  messages : List String
  errorMessage : Option String
deriving DecidableEq

/-- `appendAssistantMessage` (lines 344-358): trims the body and appends
it as one completed assistant message, skipping blank bodies. -/
def appendAssistantMessage (body : String) (st : ChatScreenState) : ChatScreenState :=
  let normalized := jsTrim body
  if normalized.length = 0 then st
  else { st with messages := st.messages ++ [normalized] }

/-- JavaScript `a || b` on strings: the empty string is falsy. -/
def jsOrElse (a b : String) : String :=
  if a = "" then b else a

/-- The state-machine body of `onChatEvent` (lines 366-401), after the
active-run filter has passed. -/
def applyChatEvent (payload : ChatEventPayload) (st : ChatScreenState) : ChatScreenState :=
  match payload.state with
  | .delta =>
    let delta := extractTextFromUnknown payload.message
    if 0 < delta.length then
      { st with streamText := delta, isStreaming := true }
    else st
  | .final =>
    let finalText := jsOrElse (extractTextFromUnknown payload.message) st.streamText
    let st1 := appendAssistantMessage finalText st
    { st1 with activeRunId := none, streamText := "", isStreaming := false }
  | .aborted =>
    let finalText := jsOrElse (extractTextFromUnknown payload.message) st.streamText
    let st1 := appendAssistantMessage finalText st
    { st1 with activeRunId := none, streamText := "", isStreaming := false }
  | .error =>
    { st with
        activeRunId := none, streamText := "", isStreaming := false,
        errorMessage := some (payload.errorMessage.getD "Chat stream failed") }

/-- `onChatEvent` (lines 360-404): events whose `runId` differs from a
truthy tracked run id are ignored (the empty string is falsy in the
JavaScript guard), everything else goes through the state machine. -/
def onChatEvent (payload : ChatEventPayload) (st : ChatScreenState) : ChatScreenState :=
  match st.activeRunId with
  | some r => if r ≠ "" ∧ payload.runId ≠ r then st else applyChatEvent payload st
  | none => applyChatEvent payload st

/-- The success path of `sendMessage` (lines 597-598): after the ack for
run `R` arrives, the screen tracks `R` and shows the streaming state;
the stream buffer still holds its initial empty value. -/
def afterSendReturns (runId : String) (st : ChatScreenState) : ChatScreenState :=
  { st with activeRunId := some runId, isStreaming := true }

end ChatScreen

namespace Security

/-- UTF-8 encoding of one character (what `TextEncoder` does per code
point). -/
def utf8EncodeCharNat (c : Char) : List Nat :=
  let n := c.toNat
  if n < 128 then [n]
  else if n < 2048 then [192 + n / 64, 128 + n % 64]
  else if n < 65536 then [224 + n / 4096, 128 + n / 64 % 64, 128 + n % 64]
  else [240 + n / 262144, 128 + n / 4096 % 64, 128 + n / 64 % 64, 128 + n % 64]

/-- `new TextEncoder().encode(payload)`: the UTF-8 bytes of a string. -/
def utf8Encode (s : String) : List Nat :=
  s.data.flatMap utf8EncodeCharNat

/-- The standard base64 alphabet used by `btoa` / `atob`. -/
def base64Chars : List Char :=
  "ABCDEFGHIJKLMNOPQRSTUVWXYZabcdefghijklmnopqrstuvwxyz0123456789+/".data

/-- Character for a 6-bit group. -/
def base64CharOf (n : Nat) : Char :=
  base64Chars.getD n 'A'

/-- Value of a base64 character, scanning the alphabet. -/
def base64ValAux : List Char → Nat → Char → Option Nat
  | [], _, _ => none
  | a :: rest, i, c => if a == c then some i else base64ValAux rest (i + 1) c

/-- Value of a base64 character (`none` for characters outside the
alphabet, on which `atob` throws). -/
def base64CharVal (c : Char) : Option Nat :=
  base64ValAux base64Chars 0 c

/-- Standard base64 encoding of a byte list with `=` padding (`btoa`). -/
def base64EncodeList : List Nat → List Char
  | b1 :: b2 :: b3 :: rest =>
      base64CharOf (b1 / 4) :: base64CharOf (b1 % 4 * 16 + b2 / 16) ::
      base64CharOf (b2 % 16 * 4 + b3 / 64) :: base64CharOf (b3 % 64) ::
      base64EncodeList rest
  | [b1, b2] =>
      [base64CharOf (b1 / 4), base64CharOf (b1 % 4 * 16 + b2 / 16),
       base64CharOf (b2 % 16 * 4), '=']
  | [b1] => [base64CharOf (b1 / 4), base64CharOf (b1 % 4 * 16), '=', '=']
  | [] => []

/-- `bytesToBase64Url` in security/base64url.ts (lines 10-16): base64
encode, make URL-safe, drop the `=` padding (which only ever occurs at
the end). -/
def bytesToBase64Url (bytes : List Nat) : String :=
  String.mk (((base64EncodeList bytes).map
    (fun c => if c = '+' then '-' else if c = '/' then '_' else c)).filter
    (fun c => c ≠ '='))

/-- `atob` on a padded base64 character list: groups of four characters
decode to three bytes, with `=` padding allowed only at the very end;
anything else throws (`none` here). -/
def atobDecode : List Char → Option (List Nat)
  | [] => some []
  | c1 :: c2 :: c3 :: c4 :: rest =>
    match base64CharVal c1, base64CharVal c2 with
    | some v1, some v2 =>
      if c3 = '=' then
        if c4 = '=' ∧ rest = [] then some [v1 * 4 + v2 / 16] else none
      else
        match base64CharVal c3 with
        | some v3 =>
          if c4 = '=' then
            if rest = [] then some [v1 * 4 + v2 / 16, v2 % 16 * 16 + v3 / 4] else none
          else
            match base64CharVal c4, atobDecode rest with
            | some v4, some tail =>
              some ((v1 * 4 + v2 / 16) :: (v2 % 16 * 16 + v3 / 4) :: (v3 % 4 * 64 + v4) :: tail)
            | _, _ => none
        | none => none
    | _, _ => none
  | _ => none

/-- `base64UrlToBytes` in security/base64url.ts (lines 27-36): restore
the standard alphabet, re-pad to a multiple of four, decode; a bad input
makes `atob` throw, modelled as `none`. -/
def base64UrlToBytes (value : String) : Option (List Nat) :=
  let padded := value.data.map
    (fun c => if c = '-' then '+' else if c = '_' then '/' else c)
  let padLen := if padded.length % 4 = 0 then 0 else 4 - padded.length % 4
  atobDecode (padded ++ List.replicate padLen '=')

/-- The external cryptographic primitives this code base calls
(tweetnacl Ed25519 and js-sha256); they are library code, not part of
this repository, so they are abstracted as opaque-to-the-model
functions over byte lists. `nacl.sign.keyPair.fromSeed` yields
`publicKey = pk(seed)` and `secretKey = seed ++ publicKey`. -/
structure CryptoPrimitives where
  ed25519PublicKeyFromSeed : List Nat → List Nat
  ed25519SignDetached : (message secretKey : List Nat) → List Nat
  sha256HexOfBytes : List Nat → String

/-- `DeviceIdentity` in security/deviceIdentity.ts. -/
structure DeviceIdentity where
  seed32 : String
  publicKey : String
  deviceId : String
  deviceToken : Option String := none
deriving DecidableEq

/-- `DeviceAuthSignaturePayloadV2Input` in the device-auth module. -/
structure DeviceAuthSignaturePayloadV2Input where
  deviceId : String
  clientId : String
  clientMode : String
  role : String
  scopes : List String
  signedAtMs : Nat
  token : String
  nonce : String

/-- `buildDeviceAuthSignaturePayloadV2` (connectionSecrets.ts lines
349-364): the canonical pipe-delimited v2 payload, with the scopes
joined by commas and the timestamp rendered in decimal. -/
def buildDeviceAuthSignaturePayloadV2 (input : DeviceAuthSignaturePayloadV2Input) : String :=
  let scopesCsv := joinWith "," input.scopes
  joinWith "|"
    ["v2", input.deviceId, input.clientId, input.clientMode, input.role,
     scopesCsv, toString input.signedAtMs, input.token, input.nonce]

/-- `signDeviceAuthPayload` (connectionSecrets.ts lines 377-387):
decodes the base64url seed, insists on 32 bytes, derives the Ed25519
keypair from the seed, signs the UTF-8 bytes of the payload, and
base64url-encodes the detached signature. Thrown errors are modelled as
`Except.error`. -/
def signDeviceAuthPayload (crypto : CryptoPrimitives) (seed32 : String) (payload : String) :
    Except String String :=
  match base64UrlToBytes seed32 with
  | none => .error "atob: invalid base64 input"
  | some seedBytes =>
    if seedBytes.length ≠ 32 then .error "device seed32 must be 32 bytes"
    else
      let publicKey := crypto.ed25519PublicKeyFromSeed seedBytes
      let secretKey := seedBytes ++ publicKey
      .ok (bytesToBase64Url (crypto.ed25519SignDetached (utf8Encode payload) secretKey))

/-- `GatewayOperatorConnectParams.client`. -/
structure ConnectClientInfo where
  id : String
  version : String
  platform : String
  mode : String
deriving DecidableEq

/-- `GatewayOperatorConnectParams.auth`. -/
structure ConnectAuthInfo where
  token : String
  password : Option String := none
deriving DecidableEq

/-- `GatewayOperatorConnectParams.device`. -/
structure ConnectDeviceInfo where
  id : String
  publicKey : String
  nonce : String
  signedAt : Nat
  signature : String
deriving DecidableEq

/-- `GatewayOperatorConnectParams` (connectionSecrets.ts lines 141-260);
the `caps` / `commands` / `permissions` placeholders are always empty. -/
structure GatewayOperatorConnectParams where
  minProtocol : Nat
  maxProtocol : Nat
  role : String
  scopes : List String
  caps : List JsValue := []
  commands : List JsValue := []
  permissions : List (String × JsValue) := []
  locale : String
  userAgent : String
  client : ConnectClientInfo
  auth : ConnectAuthInfo
  device : ConnectDeviceInfo

/-- `BuildGatewayOperatorConnectParamsInput` (connectionSecrets.ts lines
266-327); `nowMs` is the reading that `(input.now ?? Date.now)()`
produces. -/
structure BuildGatewayOperatorConnectParamsInput where
  challengePayload : JsValue
  identity : DeviceIdentity
  token : String
  password : Option String := none
  scopes : Option (List String) := none
  clientId : Option String := none
  clientMode : Option String := none
  clientVersion : Option String := none
  clientPlatform : Option String := none
  locale : Option String := none
  userAgent : Option String := none
  nowMs : Nat := 0

/-- `readChallengeNonce` (connectionSecrets.ts lines 333-338): requires
a record payload with a string `nonce`, otherwise throws. Arrays pass
the source `isRecord` test but carry only all-numeric index keys, so a
`nonce` read on them is `undefined` and fails the same way. -/
def readChallengeNonce (challengePayload : JsValue) : Except String String :=
  match challengePayload with
  | .obj fields =>
    match jsField fields "nonce" with
    | some (.str n) => .ok n
    | _ => .error "connect.challenge payload must include nonce"
  | _ => .error "connect.challenge payload must include nonce"

/-- Whether a challenge payload carries a string `nonce` (the success
condition of `readChallengeNonce`). -/
def challengeHasStringNonce (challengePayload : JsValue) : Bool :=
  match challengePayload with
  | .obj fields =>
    match jsField fields "nonce" with
    | some (.str _) => true
    | _ => false
  | _ => false

/-- `buildGatewayOperatorConnectParams` (connectionSecrets.ts lines
398-453): reads the nonce (throwing when absent), selects
`(identity.deviceToken ?? token).trim()` as the auth token (throwing
when it is empty), builds the canonical v2 signature payload, signs it,
and assembles the connect params (defaults per the module constants). -/
def buildGatewayOperatorConnectParams (crypto : CryptoPrimitives)
    (input : BuildGatewayOperatorConnectParamsInput) :
    Except String GatewayOperatorConnectParams :=
  match readChallengeNonce input.challengePayload with
  | .error e => .error e
  | .ok nonce =>
    let tokenForAuth := jsTrim (input.identity.deviceToken.getD input.token)
    if tokenForAuth = "" then .error "Gateway token is required (auth.token)."
    else
      let signedAt := input.nowMs
      let scopes := input.scopes.getD ["operator.admin", "operator.approvals", "operator.pairing"]
      let clientId := input.clientId.getD "openclaw-control-ui"
      let clientMode := input.clientMode.getD "webchat"
      let role := "operator"
      let signaturePayload := buildDeviceAuthSignaturePayloadV2
        { deviceId := input.identity.deviceId, clientId := clientId,
          clientMode := clientMode, role := role, scopes := scopes,
          signedAtMs := signedAt, token := tokenForAuth, nonce := nonce }
      match signDeviceAuthPayload crypto input.identity.seed32 signaturePayload with
      | .error e => .error e
      | .ok signature =>
        .ok
          { minProtocol := 3
            maxProtocol := 3
            role := role
            scopes := scopes
            locale := input.locale.getD "ja-JP"
            userAgent := input.userAgent.getD "openpocket/0.0.1"
            client :=
              { id := clientId
                version := input.clientVersion.getD "openpocket/0.0.1"
                platform := input.clientPlatform.getD "macos"
                mode := clientMode }
            auth :=
              { token := tokenForAuth
                password :=
                  match input.password with
                  | none => none
                  | some p => if jsTrim p = "" then none else some (jsTrim p) }
            device :=
              { id := input.identity.deviceId
                publicKey := input.identity.publicKey
                nonce := nonce
                signedAt := signedAt
                signature := signature } }

/-- `deriveIdentityFromSeed` (deviceIdentity.ts lines 57-73): decodes
the base64url seed, insists on 32 bytes, derives the Ed25519 public key,
and sets `deviceId = sha256(publicKeyRawBytes)` in hex. -/
def deriveIdentityFromSeed (crypto : CryptoPrimitives) (seed32Base64Url : String)
    (deviceToken : Option String := none) : Except String DeviceIdentity :=
  match base64UrlToBytes seed32Base64Url with
  | none => .error "atob: invalid base64 input"
  | some seed32 =>
    if seed32.length ≠ 32 then .error "seed32 must be 32 bytes"
    else
      let publicKeyBytes := crypto.ed25519PublicKeyFromSeed seed32
      .ok
        { seed32 := seed32Base64Url
          publicKey := bytesToBase64Url publicKeyBytes
          deviceId := crypto.sha256HexOfBytes publicKeyBytes
          deviceToken := deviceToken }

/-- `parseLegacyIdentity` (deviceIdentity.ts lines 79-97): accepts a
record with a string `seed32` (modern) or string `privateKey` (legacy),
plus an optional string `deviceToken`; anything else is rejected. Only
object values can satisfy the field reads. -/
def parseLegacyIdentity (raw : JsValue) : Option (String × Option String) :=
  match raw with
  | .obj fields =>
    let deviceToken :=
      match jsField fields "deviceToken" with
      | some (.str t) => some t
      | _ => none
    match jsField fields "seed32" with
    | some (.str s) => some (s, deviceToken)
    | _ =>
      match jsField fields "privateKey" with
      | some (.str s) => some (s, deviceToken)
      | _ => none
  | _ => none

/-- What the secure store held under the device-identity key:
nothing (or an empty string, both falsy), a string `JSON.parse` rejects,
or a parsed JSON value. -/
inductive StoredData where
  | absent
  | invalidJson
  | json (v : JsValue)

/-- The `source` field of `DeviceIdentityLoadResult`. -/
inductive IdentitySource where
  | existing
  | recovered
  | created
deriving DecidableEq

/-- `DeviceIdentityLoadResult` in deviceIdentity.ts. -/
structure DeviceIdentityLoadResult where
  identity : DeviceIdentity
  source : IdentitySource
deriving DecidableEq

/-- Whether the stored record field `k` is exactly the string `s`
(the JS strict equality `original[k] !== s` is the negation of this). -/
def jsFieldEqStr (v : JsValue) (k s : String) : Bool :=
  match jsFieldOf v k with
  | some (.str t) => t == s
  | _ => false

/-- Whether the stored record field `k` is a string at all. -/
def jsFieldIsStr (v : JsValue) (k : String) : Bool :=
  match jsFieldOf v k with
  | some (.str _) => true
  | _ => false

/-- `loadOrCreateDeviceIdentity` (deviceIdentity.ts lines 110-146),
with the fresh random seed already base64url-encoded as `freshSeed`
(`bytesToBase64Url(randomBytes(32))`). No stored record creates a fresh
identity (`created`); a record that fails to parse, or whose
derivation throws, is regenerated (`recovered`); a record whose stated
`deviceId` / `publicKey` / `seed32` disagree with the values derived
from its seed is repaired (`recovered`); only a fully consistent record
is reused (`existing`). -/
def loadOrCreateDeviceIdentity (crypto : CryptoPrimitives) (stored : StoredData)
    (freshSeed : String) : Except String DeviceIdentityLoadResult :=
  match stored with
  | .absent =>
    match deriveIdentityFromSeed crypto freshSeed with
    | .error e => .error e
    | .ok identity => .ok { identity := identity, source := .created }
  | .invalidJson =>
    match deriveIdentityFromSeed crypto freshSeed with
    | .error e => .error e
    | .ok identity => .ok { identity := identity, source := .recovered }
  | .json v =>
    match parseLegacyIdentity v with
    | none =>
      match deriveIdentityFromSeed crypto freshSeed with
      | .error e => .error e
      | .ok identity => .ok { identity := identity, source := .recovered }
    | some (seed, deviceToken) =>
      match deriveIdentityFromSeed crypto seed deviceToken with
      | .error _ =>
        match deriveIdentityFromSeed crypto freshSeed with
        | .error e => .error e
        | .ok identity => .ok { identity := identity, source := .recovered }
      | .ok identity =>
        let isMismatch :=
          !jsFieldEqStr v "deviceId" identity.deviceId ||
          !jsFieldEqStr v "publicKey" identity.publicKey ||
          !jsFieldEqStr v "seed32" identity.seed32
        if isMismatch || !jsFieldIsStr v "seed32" then
          .ok { identity := identity, source := .recovered }
        else
          .ok { identity := identity, source := .existing }

end Security

namespace Sessions

/-- A remote call issued through the gateway requester
(`this.requester.request(method, params)`). -/
structure RemoteRequest where
  method : String
  params : JsValue

/-- First-occurrence deduplication, as `new Set(keys)` performs on
insertion order. -/
def jsSetFromList : List String → List String
  | [] => []
  | s :: rest => s :: jsSetFromList (rest.filter (fun t => t != s))
termination_by l => l.length
decreasing_by
  simp_wf
  have h := List.length_filter_le (fun t => t != s) rest
  omega

/-- The two secure-store slots `SessionsService` owns, holding the
already-parsed JSON values (`JSON.stringify`/`JSON.parse` round-trip on
these shapes is the identity; the source catch branch for corrupted
JSON text therefore has no counterpart here and is absorbed into the
non-matching-shape cases). -/
structure SessionsLocalState where
  pinsRaw : Option JsValue
  labelsRaw : Option JsValue

/-- `getPinnedKeys` (SessionsService lines 208-224): missing or
non-array data yields the empty set; string elements are kept and
deduplicated with `Set` insertion semantics. -/
def getPinnedKeys (st : SessionsLocalState) : List String :=
  match st.pinsRaw with
  | none => []
  | some (.arr items) =>
    jsSetFromList (items.filterMap (fun v => match v with | .str s => some s | _ => none))
  | some _ => []

/-- `setPinned` (lines 237-246): re-reads the pinned set, adds or
deletes the key (`Set.add` appends a new key at the end, `Set.delete`
preserves the order of the rest), and persists the array; no gateway
request is made. -/
def setPinned (st : SessionsLocalState) (key : String) (pinned : Bool) :
    SessionsLocalState × List String × List RemoteRequest :=
  let current := getPinnedKeys st
  let next :=
    if pinned then (if key ∈ current then current else current ++ [key])
    else current.filter (fun t => t != key)
  ({ st with pinsRaw := some (.arr (next.map JsValue.str)) }, next, [])

/-- `togglePinned` (lines 257-262): reads the current pin state, flips
it through `setPinned`, and reports the new state; no gateway request
is made. -/
def togglePinned (st : SessionsLocalState) (key : String) :
    SessionsLocalState × Bool × List RemoteRequest :=
  let current := getPinnedKeys st
  let nextPinned : Bool := if key ∈ current then false else true
  let res := setPinned st key nextPinned
  (res.1, nextPinned, res.2.2)

/-- `getLocalSessionLabels` (lines 271-290): missing or non-record data
yields the empty map; string-valued entries are kept. The source
`isRecord` also admits arrays, whose `Object.entries` are index-keyed. -/
def getLocalSessionLabels (st : SessionsLocalState) : List (String × String) :=
  match st.labelsRaw with
  | none => []
  | some (.obj fields) =>
    fields.filterMap (fun p => match p.2 with | .str s => some (p.1, s) | _ => none)
  | some (.arr items) =>
    (items.enum.map (fun p => (toString p.1, p.2))).filterMap
      (fun p => match p.2 with | .str s => some (p.1, s) | _ => none)
  | some _ => []

/-- JavaScript object property assignment on an entries list: an
existing key is overwritten in place, a new key is appended. -/
def objSet (m : List (String × String)) (k v : String) : List (String × String) :=
  if m.any (fun p => p.1 == k) then m.map (fun p => if p.1 == k then (k, v) else p)
  else m ++ [(k, v)]

/-- JavaScript `delete obj[k]` on an entries list. -/
def objDelete (m : List (String × String)) (k : String) : List (String × String) :=
  m.filter (fun p => p.1 != k)

/-- `setLocalSessionLabel` (lines 301-310): `null` or a blank-trimming
label clears the override, anything else stores the trimmed label; the
map is persisted; no gateway request is made. -/
def setLocalSessionLabel (st : SessionsLocalState) (key : String) (label : Option String) :
    SessionsLocalState × List RemoteRequest :=
  let labels := getLocalSessionLabels st
  let normalizedLabel := match label with | none => "" | some l => jsTrim l
  let next :=
    if normalizedLabel = "" then objDelete labels key
    else objSet labels key normalizedLabel
  ({ st with labelsRaw := some (.obj (next.map (fun p => (p.1, JsValue.str p.2)))) }, [])

/-- `updateSessionLabel` (lines 159-163), for contrast with the local
mutations: it issues a `sessions.patch` gateway request and leaves the
local store untouched. -/
def updateSessionLabel (st : SessionsLocalState) (key : String) (label : Option String) :
    SessionsLocalState × List RemoteRequest :=
  let normalizedLabel :=
    match label with
    | none => JsValue.null
    | some l => if jsTrim l = "" then JsValue.null else JsValue.str (jsTrim l)
  (st, [{ method := "sessions.patch",
          params := .obj [("key", .str key), ("label", normalizedLabel)] }])

end Sessions

namespace GatewayClient

variable {ρ : Type}

theorem lookupPending_mem {m : List (String × ρ)} {id : String} {r : ρ}
    (h : lookupPending m id = some r) : (id, r) ∈ m := by
  unfold lookupPending at h
  cases hf : m.find? (fun e => e.1 == id) with
  | none =>
    rw [hf] at h
    exact absurd h (by simp)
  | some p =>
    rw [hf] at h
    have hp : p.2 = r := by simpa using h
    have hpeq : p.1 = id := by simpa using List.find?_some hf
    have hm := List.mem_of_find?_eq_some hf
    have hpr : p = (id, r) := by
      cases p
      simp_all
    rw [← hpr]
    exact hm

theorem lookupPending_removePending_self (m : List (String × ρ)) (id : String) :
    lookupPending (removePending m id) id = none := by
  have hf : (m.filter (fun e => e.1 != id)).find? (fun e => e.1 == id) = none := by
    rw [List.find?_eq_none]
    intro a ha
    have h2 := (List.mem_filter.mp ha).2
    simp only [bne_iff_ne, ne_eq, decide_eq_true_eq] at h2
    simp [h2]
  unfold lookupPending removePending
  rw [hf]
  rfl

theorem pending_key_unique {m : List (String × ρ)} (hnd : (m.map Prod.fst).Nodup)
    {id : String} {r r' : ρ} (h1 : (id, r) ∈ m) (h2 : (id, r') ∈ m) : r = r' := by
  induction m with
  | nil => cases h1
  | cons p rest ih =>
    rw [List.map_cons, List.nodup_cons] at hnd
    rcases List.mem_cons.mp h1 with h1a | h1b
    · rcases List.mem_cons.mp h2 with h2a | h2b
      · rw [← h1a] at h2a
        exact (Prod.mk.injEq _ _ _ _ ▸ h2a).2.symm
      · exfalso
        apply hnd.1
        rw [← h1a]
        simpa using List.mem_map_of_mem Prod.fst h2b
    · rcases List.mem_cons.mp h2 with h2a | h2b
      · exfalso
        apply hnd.1
        rw [← h2a]
        simpa using List.mem_map_of_mem Prod.fst h1b
      · exact ih hnd.2 h1b h2b

end GatewayClient

end OpenPocket

open OpenPocket

/-- C1: for every well-formed response frame delivered while the
connection is open, the multiplexer settles exactly one pending request
— the one registered under the frame id, resolving with the payload when
`ok` and rejecting otherwise — after removing it from the pending map,
so redelivering the same frame settles nothing; a frame whose id matches
no pending request changes neither the pending map nor the listener
registry. -/
theorem c1_response_settles_exactly_one {ρ : Type}
    (packet : GatewayClient.GatewayResponsePacket) (st : GatewayClient.ClientState ρ)
    (hnd : (st.pendingRequests.map Prod.fst).Nodup) :
    (GatewayClient.lookupPending st.pendingRequests packet.id = none →
      GatewayClient.handleResponsePacket packet st = (st, [])) ∧
    (∀ r, GatewayClient.lookupPending st.pendingRequests packet.id = some r →
      (GatewayClient.handleResponsePacket packet st).2 =
        [(r, if packet.ok then GatewayClient.RequestSettlement.resolved packet.payload
             else GatewayClient.RequestSettlement.rejected
               { message := GatewayClient.normalizeResponseErrorMessage packet.error,
                 code := none })] ∧
      (GatewayClient.handleResponsePacket packet st).1.pendingRequests =
        GatewayClient.removePending st.pendingRequests packet.id ∧
      (GatewayClient.handleResponsePacket packet st).1.eventListeners = st.eventListeners ∧
      GatewayClient.lookupPending
        (GatewayClient.handleResponsePacket packet st).1.pendingRequests packet.id = none ∧
      (GatewayClient.handleResponsePacket packet
        (GatewayClient.handleResponsePacket packet st).1).2 = [] ∧
      (∀ r', (packet.id, r') ∈ st.pendingRequests → r' = r)) := by
  constructor
  · intro hnone
    unfold GatewayClient.handleResponsePacket
    rw [hnone]
  · intro r hsome
    have e : GatewayClient.handleResponsePacket packet st =
        ({ st with pendingRequests := GatewayClient.removePending st.pendingRequests packet.id },
         [(r, if packet.ok then GatewayClient.RequestSettlement.resolved packet.payload
              else GatewayClient.RequestSettlement.rejected
                { message := GatewayClient.normalizeResponseErrorMessage packet.error,
                  code := none })]) := by
      unfold GatewayClient.handleResponsePacket
      rw [hsome]
      cases packet.ok <;> simp
    have hlook : GatewayClient.lookupPending
        (GatewayClient.removePending st.pendingRequests packet.id) packet.id = none :=
      GatewayClient.lookupPending_removePending_self _ _
    refine ⟨by rw [e], by rw [e], by rw [e], by rw [e]; exact hlook, ?_, ?_⟩
    · rw [e]
      unfold GatewayClient.handleResponsePacket
      rw [show GatewayClient.lookupPending
          (GatewayClient.removePending st.pendingRequests packet.id) packet.id = none from hlook]
    · intro r' hmem
      exact GatewayClient.pending_key_unique hnd hmem (GatewayClient.lookupPending_mem hsome)

/-- Witness for C1 at a concrete state: with pending requests `a ↦ 1`
and `b ↦ 2` and an `ok` response frame for id `a`, exactly request `1`
resolves with the payload. -/
theorem c1_response_settlement_witness :
    GatewayClient.lookupPending [("a", (1 : Nat)), ("b", 2)] "a" = some 1 ∧
    (GatewayClient.handleResponsePacket
      { id := "a", ok := true, payload := .str "p" }
      { socketOpen := true, status := .connected, shouldReconnect := true,
        reconnectEnabled := true, hasConnectInput := true, reconnectAttempt := 0,
        isReconnectFlow := false, reconnectTimer := none,
        pendingRequests := [("a", (1 : Nat)), ("b", 2)], eventListeners := [("chat", [0])],
        reconnectInitialDelayMs := 1000, reconnectFactor := 2,
        reconnectMaxDelayMs := 15000 }).2 =
      [((1 : Nat), GatewayClient.RequestSettlement.resolved (.str "p"))] := by
  refine ⟨rfl, ?_⟩
  have h := (c1_response_settles_exactly_one
    { id := "a", ok := true, payload := .str "p" }
    { socketOpen := true, status := .connected, shouldReconnect := true,
      reconnectEnabled := true, hasConnectInput := true, reconnectAttempt := 0,
      isReconnectFlow := false, reconnectTimer := none,
      pendingRequests := [("a", (1 : Nat)), ("b", 2)], eventListeners := [("chat", [0])],
      reconnectInitialDelayMs := 1000, reconnectFactor := 2,
      reconnectMaxDelayMs := 15000 }
    (by simp)).2 1 rfl
  simpa using h.1

/-- C3 counterexample: the claim asserts that a structured gateway error
code (here `PAIRING_REQUIRED`) is preserved separately on the surfaced
error, but `handleResponsePacket` rejects with `new Error(message)` only:
at this concrete frame the rejection error carries `code = none`, not
`code = some "PAIRING_REQUIRED"`. -/
theorem c3_error_code_not_preserved_counterexample :
    (GatewayClient.handleResponsePacket
      { id := "a", ok := false,
        error := some (.obj (some "PAIRING_REQUIRED") (some "Pairing required")) }
      { socketOpen := true, status := .connected, shouldReconnect := true,
        reconnectEnabled := true, hasConnectInput := true, reconnectAttempt := 0,
        isReconnectFlow := false, reconnectTimer := none,
        pendingRequests := [("a", (0 : Nat))], eventListeners := [],
        reconnectInitialDelayMs := 1000, reconnectFactor := 2,
        reconnectMaxDelayMs := 15000 }).2 =
      [((0 : Nat), GatewayClient.RequestSettlement.rejected
        { message := "Pairing required", code := none })] ∧
    (none : Option String) ≠ some "PAIRING_REQUIRED" := by
  constructor
  · rfl
  · decide

/-- C3 (amended): every `ok = false` response rejects its pending
request with a single human-readable message — the bare string itself,
else the structured `message`, else the structured `code`, else a fixed
default — but the structured `code` is not preserved separately on the
surfaced error (its `code` slot is always `none`); a code only ever
surfaces as the message text when no `message` field is present. -/
theorem c3_rejection_message_normalized {ρ : Type}
    (st : GatewayClient.ClientState ρ) (packet : GatewayClient.GatewayResponsePacket)
    (r : ρ) (hsome : GatewayClient.lookupPending st.pendingRequests packet.id = some r)
    (hok : packet.ok = false) :
    (∀ s, packet.error = some (.str s) →
      (GatewayClient.handleResponsePacket packet st).2 =
        [(r, GatewayClient.RequestSettlement.rejected { message := s, code := none })]) ∧
    (∀ c m, packet.error = some (.obj c (some m)) →
      (GatewayClient.handleResponsePacket packet st).2 =
        [(r, GatewayClient.RequestSettlement.rejected { message := m, code := none })]) ∧
    (∀ c, packet.error = some (.obj (some c) none) →
      (GatewayClient.handleResponsePacket packet st).2 =
        [(r, GatewayClient.RequestSettlement.rejected { message := c, code := none })]) ∧
    ((packet.error = some (.obj none none) ∨ packet.error = none) →
      (GatewayClient.handleResponsePacket packet st).2 =
        [(r, GatewayClient.RequestSettlement.rejected
          { message := "Gateway request failed", code := none })]) := by
  have e : (GatewayClient.handleResponsePacket packet st).2 =
      [(r, GatewayClient.RequestSettlement.rejected
        { message := GatewayClient.normalizeResponseErrorMessage packet.error,
          code := none })] := by
    unfold GatewayClient.handleResponsePacket
    rw [hsome, hok]
    simp
  refine ⟨?_, ?_, ?_, ?_⟩
  · intro s hs
    rw [e, hs]
    rfl
  · intro c m hm
    rw [e, hm]
    cases c <;> rfl
  · intro c hc
    rw [e, hc]
    rfl
  · intro hd
    rcases hd with hd | hd <;> rw [e, hd] <;> rfl

/-- Witness for C3 at a concrete frame: a structured
`{code: PAIRING_REQUIRED, message: "Pairing required"}` error rejects
with exactly the message `"Pairing required"`. -/
theorem c3_rejection_message_witness :
    (GatewayClient.handleResponsePacket
      { id := "b", ok := false,
        error := some (.obj (some "PAIRING_REQUIRED") (some "Pairing required")) }
      { socketOpen := true, status := .connected, shouldReconnect := true,
        reconnectEnabled := true, hasConnectInput := true, reconnectAttempt := 0,
        isReconnectFlow := false, reconnectTimer := none,
        pendingRequests := [("b", (7 : Nat))], eventListeners := [],
        reconnectInitialDelayMs := 1000, reconnectFactor := 2,
        reconnectMaxDelayMs := 15000 }).2 =
      [((7 : Nat), GatewayClient.RequestSettlement.rejected
        { message := "Pairing required", code := none })] :=
  (c3_rejection_message_normalized
    { socketOpen := true, status := .connected, shouldReconnect := true,
      reconnectEnabled := true, hasConnectInput := true, reconnectAttempt := 0,
      isReconnectFlow := false, reconnectTimer := none,
      pendingRequests := [("b", (7 : Nat))], eventListeners := [],
      reconnectInitialDelayMs := 1000, reconnectFactor := 2,
      reconnectMaxDelayMs := 15000 }
    { id := "b", ok := false,
      error := some (.obj (some "PAIRING_REQUIRED") (some "Pairing required")) }
    7 rfl rfl).2.1 (some "PAIRING_REQUIRED") "Pairing required" rfl

/-- C4: whenever the transport closes, the `onclose` handler empties the
pending map, and the first actions it emits are exactly one
"socket closed" rejection per pending request, in registration order —
in particular no reconnect scheduling (`scheduleRetry`) occurs among
them, so every pending request is rejected before any reconnect attempt
begins and none survives across a reconnection boundary. -/
theorem c4_close_rejects_all_before_reconnect {ρ : Type}
    (st : GatewayClient.ClientState ρ) :
    (GatewayClient.handleSocketClose st).1.pendingRequests = [] ∧
    (GatewayClient.handleSocketClose st).2.take st.pendingRequests.length =
      st.pendingRequests.map (fun e =>
        GatewayClient.ClientAction.rejectPending e.2
          { message := "socket closed", code := none }) ∧
    (∀ d, GatewayClient.ClientAction.scheduleRetry d ∉
      (GatewayClient.handleSocketClose st).2.take st.pendingRequests.length) := by
  have key : (GatewayClient.handleSocketClose st).1.pendingRequests = [] ∧
      ∃ tail, (GatewayClient.handleSocketClose st).2 =
        st.pendingRequests.map (fun e =>
          GatewayClient.ClientAction.rejectPending e.2
            { message := "socket closed", code := none }) ++ tail := by
    unfold GatewayClient.handleSocketClose GatewayClient.rejectAllPending
      GatewayClient.scheduleReconnect
    by_cases h1 : st.shouldReconnect = true <;>
      by_cases h2 : st.reconnectEnabled = true <;>
        by_cases h3 : st.hasConnectInput = true <;>
          simp [h1, h2, h3]
  have htake : (GatewayClient.handleSocketClose st).2.take st.pendingRequests.length =
      st.pendingRequests.map (fun e =>
        GatewayClient.ClientAction.rejectPending e.2
          { message := "socket closed", code := none }) := by
    obtain ⟨-, tail, htail⟩ := key
    rw [htail]
    exact List.take_left' (by rw [List.length_map])
  refine ⟨key.1, htake, ?_⟩
  intro d hd
  rw [htake] at hd
  obtain ⟨e, -, habs⟩ := List.mem_map.mp hd
  exact GatewayClient.ClientAction.noConfusion habs

/-- Witness for C4 at a concrete state with two pending requests: on
socket close both reject with the "socket closed" error, in order,
before anything else, and the pending map is left empty. -/
theorem c4_close_rejects_all_witness :
    (GatewayClient.handleSocketClose
      { socketOpen := true, status := .connected, shouldReconnect := true,
        reconnectEnabled := true, hasConnectInput := true, reconnectAttempt := 0,
        isReconnectFlow := false, reconnectTimer := none,
        pendingRequests := [("a", (1 : Nat)), ("b", 2)], eventListeners := [],
        reconnectInitialDelayMs := 1000, reconnectFactor := 2,
        reconnectMaxDelayMs := 15000 }).1.pendingRequests = [] ∧
    (GatewayClient.handleSocketClose
      { socketOpen := true, status := .connected, shouldReconnect := true,
        reconnectEnabled := true, hasConnectInput := true, reconnectAttempt := 0,
        isReconnectFlow := false, reconnectTimer := none,
        pendingRequests := [("a", (1 : Nat)), ("b", 2)], eventListeners := [],
        reconnectInitialDelayMs := 1000, reconnectFactor := 2,
        reconnectMaxDelayMs := 15000 }).2.take 2 =
      [GatewayClient.ClientAction.rejectPending 1 { message := "socket closed", code := none },
       GatewayClient.ClientAction.rejectPending 2 { message := "socket closed", code := none }] := by
  have h := c4_close_rejects_all_before_reconnect
    { socketOpen := true, status := .connected, shouldReconnect := true,
      reconnectEnabled := true, hasConnectInput := true, reconnectAttempt := 0,
      isReconnectFlow := false, reconnectTimer := none,
      pendingRequests := [("a", (1 : Nat)), ("b", 2)], eventListeners := [],
      reconnectInitialDelayMs := 1000, reconnectFactor := 2,
      reconnectMaxDelayMs := 15000 }
  exact ⟨h.1, by simpa using h.2.1⟩

/-- C8: each reconnect attempt `n = previousAttempts + 1` schedules a
retry after exactly `min(initialDelay * factor ^ (n - 1), maxDelay)`
milliseconds while bumping the attempt counter; this delay formula is
monotonically non-decreasing in `n` (for factor at least 1) and capped by
`maxDelay`; with the default parameters 1000ms / 2 / 15000ms the first
six delays are 1000, 2000, 4000, 8000, 15000, 15000; and a successful
handshake resets the attempt counter to zero. -/
theorem c8_reconnect_backoff {ρ : Type} (st : GatewayClient.ClientState ρ) (reason : String)
    (h1 : st.shouldReconnect = true) (h2 : st.reconnectEnabled = true)
    (h3 : st.hasConnectInput = true) :
    ((GatewayClient.scheduleReconnect reason st).1.reconnectAttempt =
        st.reconnectAttempt + 1 ∧
      GatewayClient.ClientAction.scheduleRetry
        (min (st.reconnectInitialDelayMs * st.reconnectFactor ^ st.reconnectAttempt)
          st.reconnectMaxDelayMs) ∈ (GatewayClient.scheduleReconnect reason st).2) ∧
    (∀ i f mx n m, 1 ≤ f → n ≤ m →
      GatewayClient.reconnectDelay i f mx n ≤ GatewayClient.reconnectDelay i f mx m) ∧
    (∀ i f mx n, GatewayClient.reconnectDelay i f mx n ≤ mx) ∧
    ((List.range 6).map (fun k => GatewayClient.reconnectDelay 1000 2 15000 (k + 1)) =
      [1000, 2000, 4000, 8000, 15000, 15000]) ∧
    (∀ st' : GatewayClient.ClientState ρ,
      (GatewayClient.connectSucceeded st').reconnectAttempt = 0) := by
  refine ⟨⟨?_, ?_⟩, ?_, ?_, ?_, ?_⟩
  · unfold GatewayClient.scheduleReconnect
    simp [h1, h2, h3]
  · unfold GatewayClient.scheduleReconnect GatewayClient.reconnectDelay
    simp [h1, h2, h3]
  · intro i f mx n m hf hnm
    unfold GatewayClient.reconnectDelay
    exact min_le_min
      (Nat.mul_le_mul_left _ (Nat.pow_le_pow_right hf (Nat.sub_le_sub_right hnm 1))) le_rfl
  · intro i f mx n
    exact min_le_right _ _
  · decide
  · intro st'
    rfl

/-- Witness for C8 at a concrete state: the second reconnect attempt
(previous attempt counter 1) with the default parameters schedules a
2000ms retry, and a successful handshake from that state resets the
counter to zero. -/
theorem c8_reconnect_backoff_witness :
    GatewayClient.ClientAction.scheduleRetry 2000 ∈
      (GatewayClient.scheduleReconnect "socket closed"
        { socketOpen := false, status := .reconnecting, shouldReconnect := true,
          reconnectEnabled := true, hasConnectInput := true, reconnectAttempt := 1,
          isReconnectFlow := true, reconnectTimer := none,
          pendingRequests := ([] : List (String × Nat)), eventListeners := [],
          reconnectInitialDelayMs := 1000, reconnectFactor := 2,
          reconnectMaxDelayMs := 15000 }).2 ∧
    (GatewayClient.connectSucceeded
      { socketOpen := true, status := .connecting, shouldReconnect := true,
        reconnectEnabled := true, hasConnectInput := true, reconnectAttempt := 5,
        isReconnectFlow := true, reconnectTimer := none,
        pendingRequests := ([] : List (String × Nat)), eventListeners := [],
        reconnectInitialDelayMs := 1000, reconnectFactor := 2,
        reconnectMaxDelayMs := 15000 }).reconnectAttempt = 0 := by
  have h := c8_reconnect_backoff (ρ := Nat)
    { socketOpen := false, status := .reconnecting, shouldReconnect := true,
      reconnectEnabled := true, hasConnectInput := true, reconnectAttempt := 1,
      isReconnectFlow := true, reconnectTimer := none,
      pendingRequests := ([] : List (String × Nat)), eventListeners := [],
      reconnectInitialDelayMs := 1000, reconnectFactor := 2,
      reconnectMaxDelayMs := 15000 } "socket closed" rfl rfl rfl
  refine ⟨?_, h.2.2.2.2 _⟩
  have hm := h.1.2
  simpa using hm

theorem gateway_sanitizeForLog_str (s : String) :
    GatewayClient.sanitizeForLog (.str s) = .str s := by
  simp [GatewayClient.sanitizeForLog]

theorem gateway_sanitizeForLogFields_get?_of_str :
    ∀ (fields : List (String × JsValue)) (i : Nat) (k s : String),
      fields.get? i = some (k, JsValue.str s) →
      (GatewayClient.sanitizeForLogFields fields).get? i =
        some (k, JsValue.str
          (if GatewayClient.isSensitiveKey k then GatewayClient.sanitizeSecret s else s)) := by
  intro fields
  induction fields with
  | nil =>
    intro i k s h
    simp at h
  | cons p rest ih =>
    intro i k s h
    cases i with
    | zero =>
      have hp : p = (k, JsValue.str s) := by simpa using h
      subst hp
      by_cases hk : GatewayClient.isSensitiveKey k = true
      · simp [GatewayClient.sanitizeForLogFields, hk]
      · simp only [Bool.not_eq_true] at hk
        simp [GatewayClient.sanitizeForLogFields, hk, gateway_sanitizeForLog_str]
    | succ j =>
      have hj : rest.get? j = some (k, JsValue.str s) := by simpa using h
      obtain ⟨k', v'⟩ := p
      cases v' <;> simp [GatewayClient.sanitizeForLogFields] <;> simpa using ih j k s hj

/-- C5 counterexample: the claim requires `signature`-keyed fields to be
replaced before the handshake params reach the log sink, but the
sanitizer that the handshake path actually uses (the GatewayClient-local
`sanitizeForLog`) only matches token/password/secret: at this concrete
parameter set the signature string is logged verbatim rather than as the
`<redacted:3>` placeholder. -/
theorem c5_signature_not_redacted_counterexample :
    (GatewayClient.handshakeChallengeSend
      (.obj [("signature", JsValue.str "abc")])).loggedParams =
      .obj [("signature", JsValue.str "abc")] ∧
    GatewayClient.sanitizeSecret "abc" = "<redacted:3>" ∧
    ("abc" : String) ≠ "<redacted:3>" := by
  have hkey : GatewayClient.isSensitiveKey "signature" = false := by decide
  refine ⟨?_, by decide, by decide⟩
  simp [GatewayClient.handshakeChallengeSend, GatewayClient.sanitizeForLog,
    GatewayClient.sanitizeForLogFields, hkey, gateway_sanitizeForLog_str]

/-- C5 (amended): before the handshake params are embedded in the
diagnostic log line, every string field whose key case-insensitively
contains `token`, `password`, or `secret` — but not `signature`, which
the GatewayClient-local sanitizer does not match — is replaced with the
length-only placeholder `sanitizeSecret`, other string fields pass
through unchanged, and the sanitization never changes the parameter set
sent on the wire. -/
theorem c5_handshake_log_sanitization :
    (∀ params, (GatewayClient.handshakeChallengeSend params).wireParams = params) ∧
    (∀ fields, (GatewayClient.handshakeChallengeSend (.obj fields)).loggedParams =
      .obj (GatewayClient.sanitizeForLogFields fields)) ∧
    (∀ fields i (k s : String), fields.get? i = some (k, JsValue.str s) →
      (GatewayClient.sanitizeForLogFields fields).get? i =
        some (k, JsValue.str
          (if GatewayClient.isSensitiveKey k then GatewayClient.sanitizeSecret s else s))) ∧
    GatewayClient.isSensitiveKey "signature" = false := by
  refine ⟨fun params => rfl, ?_, gateway_sanitizeForLogFields_get?_of_str, by decide⟩
  intro fields
  simp [GatewayClient.handshakeChallengeSend, GatewayClient.sanitizeForLog]

/-- Witness for C5 at a concrete parameter set: the string field keyed
`authToken` (whose lower-casing contains `token`) is logged as the
length-only placeholder `<redacted:4>`. -/
theorem c5_handshake_log_sanitization_witness :
    (GatewayClient.sanitizeForLogFields [("authToken", JsValue.str "abcd")]).get? 0 =
      some ("authToken", JsValue.str
        (if GatewayClient.isSensitiveKey "authToken" then GatewayClient.sanitizeSecret "abcd"
         else "abcd")) ∧
    (if GatewayClient.isSensitiveKey "authToken" then GatewayClient.sanitizeSecret "abcd"
     else "abcd") = "<redacted:4>" :=
  ⟨c5_handshake_log_sanitization.2.2.1 [("authToken", JsValue.str "abcd")] 0 "authToken" "abcd"
    rfl, by decide⟩

theorem extractTextFromUnknown_str (s : String) :
    ChatScreen.extractTextFromUnknown (.str s) = s := by
  simp [ChatScreen.extractTextFromUnknown]

theorem extractTextFromUnknown_undef :
    ChatScreen.extractTextFromUnknown .undef = "" := by
  simp [ChatScreen.extractTextFromUnknown]

/-- C2 counterexample: the claim requires delta fragments to be
concatenated so that deltas "He" and "llo" followed by an empty `final`
yield one message "Hello"; but `onChatEvent` stores each delta by
replacement (`setStreamingText(delta)`), so the scenario yields one
message "llo", not "Hello". -/
theorem c2_delta_replaces_counterexample :
    (ChatScreen.onChatEvent
      { runId := "R", sessionKey := "s", seq := 2, state := .final, message := .undef }
      (ChatScreen.onChatEvent
        { runId := "R", sessionKey := "s", seq := 1, state := .delta, message := .str "llo" }
        (ChatScreen.onChatEvent
          { runId := "R", sessionKey := "s", seq := 0, state := .delta, message := .str "He" }
          (ChatScreen.afterSendReturns "R"
            { activeRunId := none, streamText := "", isStreaming := false,
              messages := [], errorMessage := none })))).messages = ["llo"] ∧
    (["llo"] : List String) ≠ ["Hello"] := by
  have hHe := extractTextFromUnknown_str "He"
  have hllo := extractTextFromUnknown_str "llo"
  have htrim : jsTrim "llo" = "llo" := by decide
  have hlen : ("llo" : String).length = 3 := by decide
  have hlenHe : ("He" : String).length = 2 := by decide
  refine ⟨?_, by decide⟩
  simp [ChatScreen.afterSendReturns, ChatScreen.onChatEvent, ChatScreen.applyChatEvent,
    ChatScreen.appendAssistantMessage, ChatScreen.jsOrElse, hHe, hllo,
    extractTextFromUnknown_undef, htrim, hlen, hlenHe]

/-- C2 (amended): a delta whose extracted text is non-empty REPLACES the
run buffer (it does not concatenate); `final` / `aborted` close the run,
appending the freshly supplied text — or, when it is empty, the current
buffer — as one discrete completed assistant message (trimmed, skipped
when blank) while clearing the buffer; consequently the scenario
send → delta "He" → delta "llo" → empty final produces exactly one
completed assistant message with text "llo". -/
theorem c2_stream_buffer_semantics :
    (∀ (st : ChatScreen.ChatScreenState) (p : ChatScreen.ChatEventPayload) (r : String),
      st.activeRunId = some r → p.runId = r → p.state = .delta →
      0 < (ChatScreen.extractTextFromUnknown p.message).length →
      ChatScreen.onChatEvent p st =
        { st with streamText := ChatScreen.extractTextFromUnknown p.message,
                  isStreaming := true }) ∧
    (∀ (st : ChatScreen.ChatScreenState) (p : ChatScreen.ChatEventPayload) (r : String),
      st.activeRunId = some r → p.runId = r →
      p.state = .final ∨ p.state = .aborted →
      ChatScreen.onChatEvent p st =
        { st with
            activeRunId := none, streamText := "", isStreaming := false,
            messages :=
              if (jsTrim (ChatScreen.jsOrElse (ChatScreen.extractTextFromUnknown p.message)
                  st.streamText)).length = 0 then st.messages
              else st.messages ++
                [jsTrim (ChatScreen.jsOrElse (ChatScreen.extractTextFromUnknown p.message)
                  st.streamText)] }) ∧
    (ChatScreen.onChatEvent
      { runId := "R", sessionKey := "s", seq := 2, state := .final, message := .undef }
      (ChatScreen.onChatEvent
        { runId := "R", sessionKey := "s", seq := 1, state := .delta, message := .str "llo" }
        (ChatScreen.onChatEvent
          { runId := "R", sessionKey := "s", seq := 0, state := .delta, message := .str "He" }
          (ChatScreen.afterSendReturns "R"
            { activeRunId := none, streamText := "", isStreaming := false,
              messages := [], errorMessage := none })))).messages = ["llo"] := by
  refine ⟨?_, ?_, ?_⟩
  · intro st p r hactive hrun hstate hlen
    have hguard : ¬(r ≠ "" ∧ p.runId ≠ r) := by simp [hrun]
    simp only [ChatScreen.onChatEvent, hactive]
    rw [if_neg hguard]
    simp only [ChatScreen.applyChatEvent, hstate]
    simp [hlen, hactive]
  · intro st p r hactive hrun hstate
    have hguard : ¬(r ≠ "" ∧ p.runId ≠ r) := by simp [hrun]
    rcases hstate with hstate | hstate <;>
      · simp only [ChatScreen.onChatEvent, hactive]
        rw [if_neg hguard]
        simp only [ChatScreen.applyChatEvent, hstate, ChatScreen.appendAssistantMessage]
        by_cases hb : (jsTrim (ChatScreen.jsOrElse
            (ChatScreen.extractTextFromUnknown p.message) st.streamText)).length = 0 <;>
          simp [hb]
  · have hHe := extractTextFromUnknown_str "He"
    have hllo := extractTextFromUnknown_str "llo"
    have htrim : jsTrim "llo" = "llo" := by decide
    have hlen : ("llo" : String).length = 3 := by decide
    have hlenHe : ("He" : String).length = 2 := by decide
    simp [ChatScreen.afterSendReturns, ChatScreen.onChatEvent, ChatScreen.applyChatEvent,
      ChatScreen.appendAssistantMessage, ChatScreen.jsOrElse, hHe, hllo,
      extractTextFromUnknown_undef, htrim, hlen, hlenHe]

/-- Witness for C2 at a concrete state: with run `R` tracked and an
empty buffer, a delta carrying "He" replaces the buffer with "He". -/
theorem c2_stream_buffer_semantics_witness :
    ChatScreen.onChatEvent
      { runId := "R", sessionKey := "s", seq := 0, state := .delta, message := .str "He" }
      { activeRunId := some "R", streamText := "", isStreaming := true,
        messages := [], errorMessage := none } =
      { activeRunId := some "R",
        streamText := ChatScreen.extractTextFromUnknown (.str "He"), isStreaming := true,
        messages := [], errorMessage := none } ∧
    ChatScreen.extractTextFromUnknown (.str "He") = "He" := by
  refine ⟨?_, extractTextFromUnknown_str "He"⟩
  exact c2_stream_buffer_semantics.1
    { activeRunId := some "R", streamText := "", isStreaming := true,
      messages := [], errorMessage := none }
    { runId := "R", sessionKey := "s", seq := 0, state := .delta, message := .str "He" }
    "R" rfl rfl rfl
    (by rw [extractTextFromUnknown_str]; decide)

theorem readChallengeNonce_error_of_no_nonce (p : JsValue)
    (h : Security.challengeHasStringNonce p = false) :
    Security.readChallengeNonce p = .error "connect.challenge payload must include nonce" := by
  cases p <;> try rfl
  case obj fields =>
    simp only [Security.challengeHasStringNonce] at h
    simp only [Security.readChallengeNonce]
    cases hf : jsField fields "nonce" with
    | none => rfl
    | some v => cases v <;> simp_all

/-- C6: for every challenge payload with a string nonce (and a
well-formed 32-byte seed and non-empty selected token), the connect
params carry as `device.signature` the unpadded URL-safe base64 encoding
of the Ed25519 detached signature — keyed by the pair derived from the
stored seed — over exactly the UTF-8 bytes of the pipe-delimited string
`v2 | deviceId | clientId | clientMode | role | scopes.join(",") |
signedAtMs | token | nonce` in that order; and for every challenge
payload lacking a string nonce, building the connect params fails fast
with the descriptive nonce error instead of signing. -/
theorem c6_signature_payload_exact (crypto : Security.CryptoPrimitives)
    (input : Security.BuildGatewayOperatorConnectParamsInput)
    (nonce : String) (seedBytes : List Nat)
    (hnonce : Security.readChallengeNonce input.challengePayload = .ok nonce)
    (hseed : Security.base64UrlToBytes input.identity.seed32 = some seedBytes)
    (hlen : seedBytes.length = 32)
    (htok : jsTrim (input.identity.deviceToken.getD input.token) ≠ "") :
    Except.map (fun p => p.device.signature)
      (Security.buildGatewayOperatorConnectParams crypto input) =
      .ok (Security.bytesToBase64Url (crypto.ed25519SignDetached
        (Security.utf8Encode (joinWith "|"
          ["v2", input.identity.deviceId,
           input.clientId.getD "openclaw-control-ui",
           input.clientMode.getD "webchat",
           "operator",
           joinWith "," (input.scopes.getD
             ["operator.admin", "operator.approvals", "operator.pairing"]),
           toString input.nowMs,
           jsTrim (input.identity.deviceToken.getD input.token),
           nonce]))
        (seedBytes ++ crypto.ed25519PublicKeyFromSeed seedBytes))) ∧
    (∀ input2 : Security.BuildGatewayOperatorConnectParamsInput,
      Security.challengeHasStringNonce input2.challengePayload = false →
      Security.buildGatewayOperatorConnectParams crypto input2 =
        .error "connect.challenge payload must include nonce") := by
  constructor
  · simp only [Security.buildGatewayOperatorConnectParams, hnonce]
    rw [if_neg htok]
    simp only [Security.signDeviceAuthPayload, hseed, hlen]
    simp [Except.map, Security.buildDeviceAuthSignaturePayloadV2]
  · intro input2 h
    have hr := readChallengeNonce_error_of_no_nonce _ h
    simp [Security.buildGatewayOperatorConnectParams, hr]

/-- Witness for C6 at concrete inputs: an all-zero 32-byte seed, a
stored device token " tok " (trimming to "tok"), a challenge with nonce
`n1`, and placeholder crypto primitives produce exactly the expected
pipe-delimited payload signature; a nonce-free challenge fails with the
descriptive error. -/
theorem c6_signature_payload_witness :
    Except.map (fun p => p.device.signature)
      (Security.buildGatewayOperatorConnectParams
        { ed25519PublicKeyFromSeed := fun _ => [], ed25519SignDetached := fun m _ => m,
          sha256HexOfBytes := fun _ => "h" }
        { challengePayload := .obj [("nonce", .str "n1")],
          identity :=
            { seed32 := "AAAAAAAAAAAAAAAAAAAAAAAAAAAAAAAAAAAAAAAAAAA",
              publicKey := "pk", deviceId := "dev1", deviceToken := some " tok " },
          token := "manual", nowMs := 1700 }) =
      .ok (Security.bytesToBase64Url (Security.utf8Encode
        (joinWith "|"
          ["v2", "dev1", "openclaw-control-ui", "webchat", "operator",
           joinWith "," ["operator.admin", "operator.approvals", "operator.pairing"],
           toString (1700 : Nat), jsTrim " tok ", "n1"]))) ∧
    Security.buildGatewayOperatorConnectParams
      { ed25519PublicKeyFromSeed := fun _ => [], ed25519SignDetached := fun m _ => m,
        sha256HexOfBytes := fun _ => "h" }
      { challengePayload := .obj [("ts", .num 5)],
        identity :=
          { seed32 := "AAAAAAAAAAAAAAAAAAAAAAAAAAAAAAAAAAAAAAAAAAA",
            publicKey := "pk", deviceId := "dev1", deviceToken := some " tok " },
        token := "manual", nowMs := 1700 } =
      .error "connect.challenge payload must include nonce" := by
  have h := c6_signature_payload_exact
    { ed25519PublicKeyFromSeed := fun _ => [], ed25519SignDetached := fun m _ => m,
      sha256HexOfBytes := fun _ => "h" }
    { challengePayload := .obj [("nonce", .str "n1")],
      identity :=
        { seed32 := "AAAAAAAAAAAAAAAAAAAAAAAAAAAAAAAAAAAAAAAAAAA",
          publicKey := "pk", deviceId := "dev1", deviceToken := some " tok " },
      token := "manual", nowMs := 1700 }
    "n1" (List.replicate 32 0) rfl (by decide) (by decide) (by decide)
  refine ⟨?_, ?_⟩
  · have h1 := h.1
    simpa using h1
  · exact h.2
      { challengePayload := .obj [("ts", .num 5)],
        identity :=
          { seed32 := "AAAAAAAAAAAAAAAAAAAAAAAAAAAAAAAAAAAAAAAAAAA",
            publicKey := "pk", deviceId := "dev1", deviceToken := some " tok " },
        token := "manual", nowMs := 1700 }
      (by decide)

/-- C10: with a well-formed challenge, the auth token is the trimmed
stored `deviceToken` whenever one exists — even one trimming to the
empty string — and only with no `deviceToken` at all does the trimmed
manual token apply; whenever the selected token trims to empty the call
fails with the "Gateway token is required" error before any signing
occurs (no hypothesis on the seed is needed for the failure cases, so a
whitespace-only stored deviceToken fails even with a valid manual token
and even an unusable seed). -/
theorem c10_auth_token_selection (crypto : Security.CryptoPrimitives)
    (input : Security.BuildGatewayOperatorConnectParamsInput) (nonce : String)
    (hnonce : Security.readChallengeNonce input.challengePayload = .ok nonce) :
    (∀ d, input.identity.deviceToken = some d → jsTrim d = "" →
      Security.buildGatewayOperatorConnectParams crypto input =
        .error "Gateway token is required (auth.token).") ∧
    (input.identity.deviceToken = none → jsTrim input.token = "" →
      Security.buildGatewayOperatorConnectParams crypto input =
        .error "Gateway token is required (auth.token).") ∧
    (∀ d seedBytes, input.identity.deviceToken = some d → jsTrim d ≠ "" →
      Security.base64UrlToBytes input.identity.seed32 = some seedBytes →
      seedBytes.length = 32 →
      Except.map (fun p => p.auth.token)
        (Security.buildGatewayOperatorConnectParams crypto input) = .ok (jsTrim d)) ∧
    (∀ seedBytes, input.identity.deviceToken = none → jsTrim input.token ≠ "" →
      Security.base64UrlToBytes input.identity.seed32 = some seedBytes →
      seedBytes.length = 32 →
      Except.map (fun p => p.auth.token)
        (Security.buildGatewayOperatorConnectParams crypto input) =
        .ok (jsTrim input.token)) := by
  refine ⟨?_, ?_, ?_, ?_⟩
  · intro d hd htrim
    simp only [Security.buildGatewayOperatorConnectParams, hnonce, hd]
    simp [htrim]
  · intro hd htrim
    simp only [Security.buildGatewayOperatorConnectParams, hnonce, hd]
    simp [htrim]
  · intro d seedBytes hd htrim hseed hlen
    simp only [Security.buildGatewayOperatorConnectParams, hnonce, hd, Option.getD_some]
    rw [if_neg htrim]
    simp only [Security.signDeviceAuthPayload, hseed, hlen]
    simp [Except.map]
  · intro seedBytes hd htrim hseed hlen
    simp only [Security.buildGatewayOperatorConnectParams, hnonce, hd, Option.getD_none]
    rw [if_neg htrim]
    simp only [Security.signDeviceAuthPayload, hseed, hlen]
    simp [Except.map]

/-- Witness for C10 at concrete inputs: a whitespace-only stored
deviceToken makes connect-parameter building fail with the token error
even though the manual token "manual-token" is non-empty and even though
the stored seed is unusable (so no signing could have happened). -/
theorem c10_auth_token_selection_witness :
    Security.buildGatewayOperatorConnectParams
      { ed25519PublicKeyFromSeed := fun _ => [], ed25519SignDetached := fun m _ => m,
        sha256HexOfBytes := fun _ => "h" }
      { challengePayload := .obj [("nonce", .str "n1")],
        identity :=
          { seed32 := "!!!", publicKey := "pk", deviceId := "dev1",
            deviceToken := some "   " },
        token := "manual-token", nowMs := 1700 } =
      .error "Gateway token is required (auth.token)." :=
  (c10_auth_token_selection
    { ed25519PublicKeyFromSeed := fun _ => [], ed25519SignDetached := fun m _ => m,
      sha256HexOfBytes := fun _ => "h" }
    { challengePayload := .obj [("nonce", .str "n1")],
      identity :=
        { seed32 := "!!!", publicKey := "pk", deviceId := "dev1",
          deviceToken := some "   " },
      token := "manual-token", nowMs := 1700 }
    "n1" rfl).1 "   " rfl (by decide)

/-- C7: deriving the device identity from a stored seed is
deterministic — two successful derivations from the same seed agree on
`publicKey` and `deviceId` — and every stored record whose stated
`publicKey` or `deviceId` disagrees with the values derived from its
seed is repaired and reported with source `recovered`, never
`existing`. -/
theorem c7_identity_determinism_and_recovery (crypto : Security.CryptoPrimitives) :
    (∀ (seed : String) (t1 t2 : Option String) (i1 i2 : Security.DeviceIdentity),
      Security.deriveIdentityFromSeed crypto seed t1 = .ok i1 →
      Security.deriveIdentityFromSeed crypto seed t2 = .ok i2 →
      i1.publicKey = i2.publicKey ∧ i1.deviceId = i2.deviceId) ∧
    (∀ (v : JsValue) (seed : String) (tok : Option String)
        (identity : Security.DeviceIdentity) (freshSeed : String),
      Security.parseLegacyIdentity v = some (seed, tok) →
      Security.deriveIdentityFromSeed crypto seed tok = .ok identity →
      (Security.jsFieldEqStr v "publicKey" identity.publicKey = false ∨
        Security.jsFieldEqStr v "deviceId" identity.deviceId = false) →
      Security.loadOrCreateDeviceIdentity crypto (.json v) freshSeed =
        .ok { identity := identity, source := .recovered }) := by
  constructor
  · intro seed t1 t2 i1 i2 h1 h2
    unfold Security.deriveIdentityFromSeed at h1 h2
    cases hb : Security.base64UrlToBytes seed with
    | none =>
      rw [hb] at h1
      exact absurd h1 (by simp)
    | some bytes =>
      rw [hb] at h1 h2
      by_cases hl : bytes.length = 32
      · simp only [hl] at h1 h2
        simp at h1 h2
        rw [← h1, ← h2]
        exact ⟨rfl, rfl⟩
      · simp [hl] at h1
  · intro v seed tok identity freshSeed hparse hderive hmis
    rcases hmis with hm | hm <;>
      simp [Security.loadOrCreateDeviceIdentity, hparse, hderive, hm]

/-- Witness for C7 at concrete inputs: a stored record whose stated
publicKey "WRONG" disagrees with the value derived from its (all-zero)
seed is loaded as `recovered` with the repaired identity. -/
theorem c7_identity_recovery_witness :
    Security.loadOrCreateDeviceIdentity
      { ed25519PublicKeyFromSeed := fun _ => [], ed25519SignDetached := fun m _ => m,
        sha256HexOfBytes := fun _ => "dev" }
      (.json (.obj
        [("seed32", .str "AAAAAAAAAAAAAAAAAAAAAAAAAAAAAAAAAAAAAAAAAAA"),
         ("publicKey", .str "WRONG"), ("deviceId", .str "dev")]))
      "AAAAAAAAAAAAAAAAAAAAAAAAAAAAAAAAAAAAAAAAAAA" =
      .ok { identity :=
              { seed32 := "AAAAAAAAAAAAAAAAAAAAAAAAAAAAAAAAAAAAAAAAAAA",
                publicKey := Security.bytesToBase64Url [], deviceId := "dev",
                deviceToken := none },
            source := .recovered } :=
  (c7_identity_determinism_and_recovery
    { ed25519PublicKeyFromSeed := fun _ => [], ed25519SignDetached := fun m _ => m,
      sha256HexOfBytes := fun _ => "dev" }).2
    (.obj
      [("seed32", .str "AAAAAAAAAAAAAAAAAAAAAAAAAAAAAAAAAAAAAAAAAAA"),
       ("publicKey", .str "WRONG"), ("deviceId", .str "dev")])
    "AAAAAAAAAAAAAAAAAAAAAAAAAAAAAAAAAAAAAAAAAAA" none
    { seed32 := "AAAAAAAAAAAAAAAAAAAAAAAAAAAAAAAAAAAAAAAAAAA",
      publicKey := Security.bytesToBase64Url [], deviceId := "dev", deviceToken := none }
    "AAAAAAAAAAAAAAAAAAAAAAAAAAAAAAAAAAAAAAAAAAA"
    rfl rfl (Or.inl (by decide))

theorem jsSetFromList_mem : ∀ (l : List String) (a : String),
    a ∈ Sessions.jsSetFromList l ↔ a ∈ l
  | [] => by intro a; simp [Sessions.jsSetFromList]
  | s :: rest => by
    intro a
    have ih := jsSetFromList_mem (rest.filter (fun t => t != s)) a
    simp only [Sessions.jsSetFromList]
    constructor
    · intro h
      rcases List.mem_cons.mp h with h | h
      · exact List.mem_cons.mpr (Or.inl h)
      · exact List.mem_cons.mpr (Or.inr (List.mem_of_mem_filter (ih.mp h)))
    · intro h
      rcases List.mem_cons.mp h with h | h
      · exact List.mem_cons.mpr (Or.inl h)
      · by_cases ha : a = s
        · exact List.mem_cons.mpr (Or.inl ha)
        · exact List.mem_cons.mpr (Or.inr (ih.mpr (List.mem_filter.mpr ⟨h, by simp [ha]⟩)))
termination_by l => l.length
decreasing_by
  simp_wf
  have := List.length_filter_le (fun t => t != s) rest
  omega

theorem jsSetFromList_nodup : ∀ l : List String, (Sessions.jsSetFromList l).Nodup
  | [] => by simp [Sessions.jsSetFromList]
  | s :: rest => by
    simp only [Sessions.jsSetFromList]
    rw [List.nodup_cons]
    refine ⟨?_, jsSetFromList_nodup _⟩
    intro hmem
    have h := List.of_mem_filter ((jsSetFromList_mem _ s).mp hmem)
    simp at h
termination_by l => l.length
decreasing_by
  simp_wf
  have := List.length_filter_le (fun t => t != s) rest
  omega

theorem jsSetFromList_eq_self : ∀ {l : List String}, l.Nodup → Sessions.jsSetFromList l = l := by
  intro l h
  induction l with
  | nil => simp [Sessions.jsSetFromList]
  | cons s rest ih =>
    rw [List.nodup_cons] at h
    simp only [Sessions.jsSetFromList]
    have hf : rest.filter (fun t => t != s) = rest := by
      apply List.filter_eq_self.mpr
      intro a ha
      have : a ≠ s := fun hc => h.1 (hc ▸ ha)
      simp [this]
    rw [hf, ih h.2]

theorem sessions_filterMap_str_map (l : List String) :
    ((l.map JsValue.str).filterMap
      (fun v => match v with | .str s => some s | _ => none)) = l := by
  induction l with
  | nil => rfl
  | cons x xs ih => simp [ih]

theorem sessions_filterMap_labels_map (m : List (String × String)) :
    ((m.map (fun p => (p.1, JsValue.str p.2))).filterMap
      (fun p => match p.2 with | .str s => some (p.1, s) | _ => none)) = m := by
  induction m with
  | nil => rfl
  | cons p ps ih => simp [ih]

theorem getPinnedKeys_nodup (st : Sessions.SessionsLocalState) :
    (Sessions.getPinnedKeys st).Nodup := by
  unfold Sessions.getPinnedKeys
  cases st.pinsRaw with
  | none => exact List.nodup_nil
  | some v => cases v <;> first | exact List.nodup_nil | exact jsSetFromList_nodup _

theorem setPinned_state (st : Sessions.SessionsLocalState) (key : String) (pinned : Bool) :
    (Sessions.setPinned st key pinned).1 =
      { st with pinsRaw := some (.arr
        ((if pinned then
            (if key ∈ Sessions.getPinnedKeys st then Sessions.getPinnedKeys st
             else Sessions.getPinnedKeys st ++ [key])
          else (Sessions.getPinnedKeys st).filter (fun t => t != key)).map
          JsValue.str)) } := rfl

theorem getPinnedKeys_persisted (st : Sessions.SessionsLocalState) (l : List String) :
    Sessions.getPinnedKeys { st with pinsRaw := some (.arr (l.map JsValue.str)) } =
      Sessions.jsSetFromList l := by
  have h : Sessions.getPinnedKeys { st with pinsRaw := some (.arr (l.map JsValue.str)) } =
      Sessions.jsSetFromList ((l.map JsValue.str).filterMap
        (fun v => match v with | JsValue.str s => some s | _ => none)) := rfl
  rw [h, sessions_filterMap_str_map]

theorem setPinned_roundtrip (st : Sessions.SessionsLocalState) (key : String) (pinned : Bool) :
    Sessions.getPinnedKeys (Sessions.setPinned st key pinned).1 =
      (if pinned then
        (if key ∈ Sessions.getPinnedKeys st then Sessions.getPinnedKeys st
         else Sessions.getPinnedKeys st ++ [key])
       else (Sessions.getPinnedKeys st).filter (fun t => t != key)) := by
  have hnd : (Sessions.getPinnedKeys st).Nodup := getPinnedKeys_nodup st
  have hnd2 : (if pinned then
      (if key ∈ Sessions.getPinnedKeys st then Sessions.getPinnedKeys st
       else Sessions.getPinnedKeys st ++ [key])
      else (Sessions.getPinnedKeys st).filter (fun t => t != key)).Nodup := by
    cases pinned with
    | false =>
      simp only [if_neg Bool.false_ne_true]
      exact hnd.filter _
    | true =>
      simp only [if_pos rfl]
      by_cases hk : key ∈ Sessions.getPinnedKeys st
      · simp [hk, hnd]
      · rw [if_neg hk]
        refine List.Nodup.append hnd (List.nodup_singleton _) ?_
        intro a ha hb
        rw [List.mem_singleton] at hb
        exact hk (hb ▸ ha)
  rw [setPinned_state, getPinnedKeys_persisted]
  exact jsSetFromList_eq_self hnd2

theorem objDelete_idem (m : List (String × String)) (k : String) :
    Sessions.objDelete (Sessions.objDelete m k) k = Sessions.objDelete m k := by
  unfold Sessions.objDelete
  apply List.filter_eq_self.mpr
  intro a ha
  exact (List.mem_filter.mp ha).2

theorem objSet_idem (m : List (String × String)) (k v : String) :
    Sessions.objSet (Sessions.objSet m k v) k v = Sessions.objSet m k v := by
  unfold Sessions.objSet
  by_cases h : m.any (fun p => p.1 == k) = true
  · rw [if_pos h]
    have h2 : ((m.map (fun p => if p.1 == k then (k, v) else p)).any
        (fun p => p.1 == k)) = true := by
      rcases List.any_eq_true.mp h with ⟨p, hp, hpk⟩
      exact List.any_eq_true.mpr
        ⟨(k, v), List.mem_map.mpr ⟨p, hp, by simp [hpk]⟩, by simp⟩
    rw [if_pos h2, List.map_map]
    apply List.map_congr_left
    intro p hp
    by_cases hpk : (p.1 == k) = true
    · simp [Function.comp, hpk]
    · simp only [Bool.not_eq_true] at hpk
      simp [Function.comp, hpk]
  · rw [if_neg h]
    have hall : ∀ p ∈ m, (p.1 == k) = false := by
      intro p hp
      by_contra hc
      simp only [Bool.not_eq_false] at hc
      exact h (List.any_eq_true.mpr ⟨p, hp, hc⟩)
    have h2 : (((m ++ [(k, v)]).any (fun p => p.1 == k))) = true :=
      List.any_eq_true.mpr ⟨(k, v), by simp, by simp⟩
    rw [if_pos h2, List.map_append]
    have h3 : m.map (fun p => if p.1 == k then (k, v) else p) = m := by
      conv_rhs => rw [← List.map_id m]
      apply List.map_congr_left
      intro p hp
      simp [hall p hp]
    rw [h3]
    simp

theorem setLocalSessionLabel_state (st : Sessions.SessionsLocalState) (key : String)
    (label : Option String) :
    (Sessions.setLocalSessionLabel st key label).1 =
      { st with labelsRaw := some (.obj
        ((if (match label with | none => "" | some l => jsTrim l) = "" then
            Sessions.objDelete (Sessions.getLocalSessionLabels st) key
          else Sessions.objSet (Sessions.getLocalSessionLabels st) key
            (match label with | none => "" | some l => jsTrim l)).map
          (fun p => (p.1, JsValue.str p.2)))) } := rfl

theorem getLocalSessionLabels_persisted (st : Sessions.SessionsLocalState)
    (m : List (String × String)) :
    Sessions.getLocalSessionLabels
      { st with labelsRaw := some (.obj (m.map (fun p => (p.1, JsValue.str p.2)))) } = m := by
  unfold Sessions.getLocalSessionLabels
  exact sessions_filterMap_labels_map m

/-- C9 counterexample: the claim makes `togglePinned` idempotent, but on
an empty local store toggling "a" once persists the pin array `["a"]`
while toggling twice persists `[]` — applying the same call twice does
not leave the same persisted state as applying it once. -/
theorem c9_toggle_not_idempotent_counterexample :
    (Sessions.togglePinned (Sessions.togglePinned
      { pinsRaw := none, labelsRaw := none } "a").1 "a").1.pinsRaw =
      some (.arr []) ∧
    (Sessions.togglePinned { pinsRaw := none, labelsRaw := none } "a").1.pinsRaw =
      some (.arr [.str "a"]) ∧
    some (JsValue.arr []) ≠ some (JsValue.arr [.str "a"]) := by
  refine ⟨?_, ?_, by simp⟩ <;>
    simp [Sessions.togglePinned, Sessions.setPinned, Sessions.getPinnedKeys,
      Sessions.jsSetFromList]

/-- C9 (amended): `setPinned` and `setLocalSessionLabel` are idempotent
pure local-storage mutations and none of the three operations issues a
remote gateway request, but `togglePinned` is not idempotent: it is an
involution — applying it twice restores the original pinned-key
membership (toggling once flips it); by contrast, `updateSessionLabel`
does issue a remote `sessions.patch` request. -/
theorem c9_local_mutations :
    (∀ st key pinned, (Sessions.setPinned st key pinned).2.2 = []) ∧
    (∀ st key, (Sessions.togglePinned st key).2.2 = []) ∧
    (∀ st key label, (Sessions.setLocalSessionLabel st key label).2 = []) ∧
    (∀ st key pinned,
      (Sessions.setPinned (Sessions.setPinned st key pinned).1 key pinned).1 =
        (Sessions.setPinned st key pinned).1) ∧
    (∀ st key label,
      (Sessions.setLocalSessionLabel
        (Sessions.setLocalSessionLabel st key label).1 key label).1 =
        (Sessions.setLocalSessionLabel st key label).1) ∧
    (∀ st key k,
      (k ∈ Sessions.getPinnedKeys
        (Sessions.togglePinned (Sessions.togglePinned st key).1 key).1 ↔
        k ∈ Sessions.getPinnedKeys st)) ∧
    (∀ st key label,
      ((Sessions.updateSessionLabel st key label).2.map (fun r => r.method)) =
        ["sessions.patch"]) := by
  refine ⟨fun st key pinned => rfl, fun st key => rfl, fun st key label => rfl,
    ?_, ?_, ?_, fun st key label => rfl⟩
  · -- setPinned idempotence
    intro st key pinned
    have hR := setPinned_roundtrip st key pinned
    rw [setPinned_state (Sessions.setPinned st key pinned).1, hR, setPinned_state st]
    have hfix : ((Sessions.getPinnedKeys st).filter (fun t => t != key)).filter
        (fun t => t != key) = (Sessions.getPinnedKeys st).filter (fun t => t != key) :=
      List.filter_eq_self.mpr (fun a ha => (List.mem_filter.mp ha).2)
    cases pinned with
    | true =>
      by_cases hk : key ∈ Sessions.getPinnedKeys st <;> simp [hk]
    | false =>
      simp [hfix]
  · -- setLocalSessionLabel idempotence
    intro st key label
    have hL := getLocalSessionLabels_persisted st
    rw [setLocalSessionLabel_state (Sessions.setLocalSessionLabel st key label).1,
      setLocalSessionLabel_state st]
    simp only [hL]
    cases label with
    | none => simp [objDelete_idem]
    | some l =>
      by_cases hno : jsTrim l = "" <;> simp [hno, objDelete_idem, objSet_idem]
  · -- togglePinned is an involution on pin membership
    intro st key k
    have hkeyf : key ∉ (Sessions.getPinnedKeys st).filter (fun t => t != key) := by
      intro h
      have := (List.mem_filter.mp h).2
      simp at this
    unfold Sessions.togglePinned
    simp only [setPinned_roundtrip]
    by_cases hk : key ∈ Sessions.getPinnedKeys st
    · by_cases hak : k = key
      · subst hak
        simp [hk, hkeyf]
      · simp [hk, hkeyf, hak, List.mem_append, List.mem_filter]
    · by_cases hak : k = key
      · subst hak
        simp [hk, List.mem_append, List.mem_filter]
      · simp [hk, hak, List.mem_append, List.mem_filter]
